import Mathlib

/-!
Verification of the GameNative GOG download core against its specification.

The definitions below are shallow embeddings of:
* `parse_and_serialize` format auto-detection
  (app/src/androidTest/assets/manifest_test_python.py),
* `AndroidManager.setup_download_manager` / `AndroidManager.download`
  build resolution (app/src/main/python/gogdl/dl/managers/manager.py),
* `ApiHandler.get_secure_link` and `ApiHandler.does_user_own`
  (app/src/main/python/gogdl/api.py).

Machine integers are modelled as `Nat`/`Int`; bytes as `Nat` values;
HTTP and the filesystem as explicit oracle arguments; the float backoff
`0.2 * 2 ** attempt` as the rational `1/5 * 2 ^ attempt`.
-/

namespace GameNative

/-! ## Manifest format auto-detection (manifest_test_python.py) -/

/-- Which decoder `parse_and_serialize` routes the input to. -/
inductive ManifestDecoder where
  | binary
  | json
deriving DecidableEq, Repr

/-- The byte literal compared against the input's first four bytes:
`data[:4] == b'\x0c\xc0\xbe\x44'` (manifest_test_python.py line 168). -/
def manifest_magic : List Nat := [0x0C, 0xC0, 0xBE, 0x44]

/-- Format auto-detection of `parse_and_serialize`: the slice `data[:4]`
is compared against `manifest_magic`; a match selects the binary decoder
(`Manifest.read_all`), anything else the JSON decoder
(`JSONManifest.read_all`). `List.take 4` has the semantics of the Python
slice `data[:4]` (shorter inputs yield a shorter slice). -/
def select_decoder (data : List Nat) : ManifestDecoder :=
  if data.take 4 = manifest_magic then ManifestDecoder.binary
  else ManifestDecoder.json

/-- Little-endian byte serialisation of a value into `n` bytes,
least significant byte first. -/
def le_bytes : Nat → Nat → List Nat
  | 0, _ => []
  | n + 1, v => v % 256 :: le_bytes n (v / 256)

/-! ## Build resolution (gogdl/dl/managers/manager.py) -/

/-- One element of the `builds['items']` list returned by the
"list builds" endpoint: `build_id`, nullable `branch`, `generation`.
Fields not consulted by the resolution code are omitted. -/
structure BuildDescriptor where
  build_id : String
  branch : Option String
  generation : Int
deriving DecidableEq, Repr

/-- Build selection of `AndroidManager.setup_download_manager`
(manager.py lines 130-147): start from `items[0]`; a first pass keeps the
first build with `branch == None`; a second pass keeps the first build
with `branch == self.branch`; finally, when `self.arguments.build` is
truthy (present and non-empty), the first build with that `build_id`
wins.  Each Python `for .. if .. break` loop that leaves the target
unchanged on no match is `(items.find? p).getD previous`.  Returns `none`
for an empty list, where the code exits with "No builds found". -/
def resolve_build (items : List BuildDescriptor) (branch : Option String)
    (explicit_build : Option String) : Option BuildDescriptor :=
  match items with
  | [] => none
  | t0 :: _ =>
    let t1 := (items.find? fun b => b.branch == none).getD t0
    let t2 := (items.find? fun b => b.branch == branch).getD t1
    let t3 :=
      match explicit_build with
      | some bid =>
          if bid = "" then t2
          else (items.find? fun b => b.build_id == bid).getD t2
      | none => t2
    some t3

/-- Build selection of `AndroidManager.download` (manager.py lines 59-72):
same as `resolve_build` but without the `branch == None` pass. -/
def resolve_build_download (items : List BuildDescriptor)
    (branch : Option String) (explicit_build : Option String) :
    Option BuildDescriptor :=
  match items with
  | [] => none
  | t0 :: _ =>
    let t1 := (items.find? fun b => b.branch == branch).getD t0
    let t2 :=
      match explicit_build with
      | some bid =>
          if bid = "" then t1
          else (items.find? fun b => b.build_id == bid).getD t1
      | none => t1
    some t2

/-- The generation override of `setup_download_manager` (manager.py lines
150-157): `generation = target_build["generation"]`, replaced by
`int(manifest_data['version'])` when `is_verifying` and the persisted
manifest file for the product id exists.  `cached_version` is `some v`
exactly when that file exists and its JSON `version` field reads as the
integer `v`. -/
def resolve_generation (target : BuildDescriptor) (is_verifying : Bool)
    (cached_version : Option Int) : Int :=
  if is_verifying then
    match cached_version with
    | some v => v
    | none => target.generation
  else target.generation

/-- Failures of `setup_download_manager`'s resolution: `exit(1)` after
"No builds found" on an empty `items` list, and the raised
"Unsupported depot version" when the final generation is neither 1 nor 2. -/
inductive ResolutionError where
  | noBuildsAvailable
  | unsupportedGeneration
deriving DecidableEq, Repr

/-- `AndroidManager.setup_download_manager` (manager.py lines 127-169),
as a function from the build list, the selectors, the repair flag and the
persisted-manifest contents to either a resolution error or the selected
build together with the final generation (which chooses the v1 or v2
manager). -/
def setup_download_manager (items : List BuildDescriptor)
    (branch explicit_build : Option String) (is_verifying : Bool)
    (cached_version : Option Int) :
    Except ResolutionError (BuildDescriptor × Int) :=
  match resolve_build items branch explicit_build with
  | none => Except.error ResolutionError.noBuildsAvailable
  | some target =>
    let generation := resolve_generation target is_verifying cached_version
    if generation = 1 ∨ generation = 2 then Except.ok (target, generation)
    else Except.error ResolutionError.unsupportedGeneration

/-- The first build of the specification's concrete scenario:
id "A", null branch, generation 2. -/
def buildA : BuildDescriptor := ⟨"A", none, 2⟩

/-- Second scenario build: id "B", branch "beta", generation 2. -/
def buildB : BuildDescriptor := ⟨"B", some "beta", 2⟩

/-- Third scenario build: id "C", branch "beta", generation 1. -/
def buildC : BuildDescriptor := ⟨"C", some "beta", 1⟩

/-- The scenario build list `[A, B, C]`. -/
def scenario_builds : List BuildDescriptor := [buildA, buildB, buildC]

/-! ## Secure-link acquisition (gogdl/api.py, `get_secure_link`) -/

/-- The JSON body of a secure-link response as `get_secure_link` reads
it: either `response.json()` raises (malformed body), or it decodes and
may or may not carry a `urls` field (read with `.get('urls', [])`). -/
inductive JsonBody where
  | malformed
  | parsed (urls : Option (List String))
deriving DecidableEq, Repr

/-- Outcome of one `self.get_authenticated_request(url)` call: either the
call raises a transport-level exception, or an HTTP response with a
status code and a body arrives. -/
inductive AttemptResult where
  | transportError
  | httpResponse (status : Nat) (body : JsonBody)
deriving DecidableEq, Repr

/-- An attempt that the retry policy counts as failed in the sense of the
specification: a raised transport exception or a non-200 status. -/
def attempt_fails : AttemptResult → Bool
  | AttemptResult.transportError => true
  | AttemptResult.httpResponse status _ => status ≠ 200

/-- An attempt after which `get_secure_link` retries: a transport
exception, a non-200 status, or a 200 response whose body fails to decode
(the `response.json()` call raises inside the same `try`). -/
def attempt_retried : AttemptResult → Bool
  | AttemptResult.transportError => true
  | AttemptResult.httpResponse status body =>
      status ≠ 200 || body == JsonBody.malformed

/-- The request URL built by `get_secure_link` (api.py lines 153-160):
empty unless `generation` is 2 or 1, then suffixed with `&root=...` when
`root` is truthy (present and non-empty). -/
def secure_link_url (gog_content_system product_id path : String)
    (generation : Int) (root : Option String) : String :=
  let url : String :=
    if generation = 2 then
      gog_content_system ++ "/products/" ++ product_id ++
        "/secure_link?_version=2&generation=2&path=" ++ path
    else if generation = 1 then
      gog_content_system ++ "/products/" ++ product_id ++
        "/secure_link?_version=2&type=depot&path=" ++ path
    else ""
  match root with
  | some r => if r = "" then url else url ++ "&root=" ++ r
  | none => url

/-- Observable events of one `get_secure_link` call: issuing the HTTP
request of a given attempt, and sleeping for a backoff delay (seconds,
as a rational: the float `0.2 * 2 ** attempt` is modelled exactly). -/
inductive SecureLinkEvent where
  | request (attempt : Nat)
  | backoff (seconds : ℚ)
deriving DecidableEq

/-- The backoff computed after attempt `attempt` fails:
`sleep_time = 0.2 * (2 ** attempt)` (api.py lines 170 and 181). -/
def sleep_time (attempt : Nat) : ℚ := 1/5 * 2 ^ attempt

/-- Result of a `get_secure_link` call: the returned list of URLs and the
chronological trace of requests and sleeps it performed. -/
structure SecureLinkRun where
  trace : List SecureLinkEvent
  result : List String
deriving DecidableEq

/-- The recursion of `get_secure_link` (api.py lines 149-183).  The
Python code recurses with `attempt + 1` and stops when
`attempt >= max_retries`; here the same recursion is driven structurally
by the remaining attempt budget `remaining = max_retries - attempt`,
which is 0 exactly when the Python guard fires.  `respond attempt url` is
the HTTP oracle: what `get_authenticated_request` plus `response.json()`
yield on that attempt.  A non-200 status, a raised request, or a raised
JSON decode each log, sleep `sleep_time attempt`, and recurse; a 200
response with a decoded body returns `body.get('urls', [])`. -/
def get_secure_link_from (respond : Nat → String → AttemptResult)
    (url : String) : (remaining attempt : Nat) → SecureLinkRun
  | 0, _ => ⟨[], []⟩
  | remaining + 1, attempt =>
    let retry : SecureLinkRun :=
      let rest := get_secure_link_from respond url remaining (attempt + 1)
      ⟨SecureLinkEvent.request attempt ::
        SecureLinkEvent.backoff (sleep_time attempt) :: rest.trace,
        rest.result⟩
    match respond attempt url with
    | AttemptResult.transportError => retry
    | AttemptResult.httpResponse status body =>
      if status ≠ 200 then retry
      else
        match body with
        | JsonBody.malformed => retry
        | JsonBody.parsed urls =>
            ⟨[SecureLinkEvent.request attempt], urls.getD []⟩

/-- `ApiHandler.get_secure_link(product_id, path, generation, root)` with
retry budget `max_retries`, starting (as the code's default) at
`attempt = 0`.  `gog_content_system` stands for the URL prefix constant
`constants.GOG_CONTENT_SYSTEM`; the `gogdl/constants.py` module is not
part of the sources, and no claim depends on its value, so the prefix is
passed through unexamined. -/
def get_secure_link (respond : Nat → String → AttemptResult)
    (gog_content_system product_id path : String) (generation : Int)
    (root : Option String) (max_retries : Nat) : SecureLinkRun :=
  get_secure_link_from respond
    (secure_link_url gog_content_system product_id path generation root)
    max_retries 0

/-- Number of HTTP requests recorded in a trace. -/
def count_requests (trace : List SecureLinkEvent) : Nat :=
  (trace.filter fun e =>
    match e with
    | SecureLinkEvent.request _ => true
    | SecureLinkEvent.backoff _ => false).length

/-- Total seconds slept across a trace. -/
def total_sleep : List SecureLinkEvent → ℚ
  | [] => 0
  | SecureLinkEvent.backoff q :: rest => q + total_sleep rest
  | SecureLinkEvent.request _ :: rest => total_sleep rest

/-- The backoff delay applied immediately before the request of attempt
`n` in a trace: the seconds of the `backoff` event directly preceding
`request n`, and 0 when `request n` is not preceded by a sleep (in
particular when nothing precedes it). -/
def delay_before (trace : List SecureLinkEvent) (n : Nat) : ℚ :=
  match trace with
  | [] => 0
  | SecureLinkEvent.request m :: rest =>
      if m = n then 0 else delay_before rest n
  | SecureLinkEvent.backoff q :: rest =>
      match rest with
      | SecureLinkEvent.request m :: _ =>
          if m = n then q else delay_before rest n
      | _ => delay_before rest n

/-- An HTTP oracle on which every attempt raises a transport exception. -/
def all_fail_respond : Nat → String → AttemptResult :=
  fun _ _ => AttemptResult.transportError

/-- An HTTP oracle that always answers 200 with a decoded body whose
`urls` field is absent. -/
def no_urls_respond : Nat → String → AttemptResult :=
  fun _ _ => AttemptResult.httpResponse 200 (JsonBody.parsed none)

/-- What remains of the request URL when the generation matches neither
branch: the optional `&root=...` suffix alone. -/
def root_suffix (root : Option String) : String :=
  match root with
  | some r => if r = "" then "" else "&root=" ++ r
  | none => ""

/-- A build descriptor whose remote generation is neither 1 nor 2. -/
def badBuild : BuildDescriptor := ⟨"X", none, 3⟩

/-! ## Ownership check (gogdl/api.py, `does_user_own`) -/

/-- The slice of the `/user/data/games` JSON document `does_user_own`
inspects: whether the decoded document carries an `owned` key, and the
id list under it (ids converted to strings, as `str(g)` does). -/
structure UserData where
  owned : Option (List String)
deriving DecidableEq, Repr

/-- Outcome of `self.get_user_data()` as seen by `does_user_own`: the
call raises, or it returns — `none` for a falsy result (the method
returns `None` on a non-OK response) and `some` for a decoded document. -/
inductive FetchUserData where
  | raised
  | returned (data : Option UserData)
deriving DecidableEq, Repr

/-- `ApiHandler.does_user_own(game_id)` (api.py lines 100-123) as a
function of the cached `self.owned` list and the fetch outcome.  A
non-empty (truthy) cache answers by membership; otherwise the fetched
document answers by membership of its `owned` list when it has one; in
every remaining case — the fetch raised, returned a falsy value, or
returned a document without an `owned` key — the method returns `True`. -/
def does_user_own (game_id : String) (owned : List String)
    (fetch : FetchUserData) : Bool :=
  if owned ≠ [] then game_id ∈ owned
  else
    match fetch with
    | FetchUserData.raised => true
    | FetchUserData.returned none => true
    | FetchUserData.returned (some ud) =>
      match ud.owned with
      | some lst => game_id ∈ lst
      | none => true

end GameNative

namespace GameNative

/-! ## Theorems -/

/-- C1: `select_decoder` picks the binary decoder exactly when the input
starts with the four bytes `0x0C 0xC0 0xBE 0x44`; every other input goes
to the JSON decoder. -/
theorem select_decoder_binary_iff (data : List Nat) :
    (select_decoder data = ManifestDecoder.binary ↔
      ∃ rest, data = 0x0C :: 0xC0 :: 0xBE :: 0x44 :: rest) ∧
    (select_decoder data ≠ ManifestDecoder.binary →
      select_decoder data = ManifestDecoder.json) := by
  constructor
  · constructor
    · intro h
      match data with
      | [] => simp [select_decoder, manifest_magic] at h
      | [a] => simp [select_decoder, manifest_magic] at h
      | [a, b] => simp [select_decoder, manifest_magic] at h
      | [a, b, c] => simp [select_decoder, manifest_magic] at h
      | a :: b :: c :: d :: rest =>
        simp only [select_decoder, manifest_magic, List.take] at h
        split at h
        · rename_i heq
          simp only [List.cons.injEq] at heq
          obtain ⟨h1, h2, h3, h4, -⟩ := heq
          exact ⟨rest, by simp [h1, h2, h3, h4]⟩
        · exact absurd h (by simp)
    · rintro ⟨rest, rfl⟩
      simp [select_decoder, manifest_magic]
  · intro h
    by_cases hb : data.take 4 = manifest_magic
    · exact absurd (by simp [select_decoder, hb]) h
    · simp [select_decoder, hb]

/-- Witness for C1: the detection property evaluated at a concrete
five-byte input carrying the magic prefix. -/
theorem select_decoder_binary_iff_witness :
    (select_decoder [0x0C, 0xC0, 0xBE, 0x44, 0x00]
        = ManifestDecoder.binary ↔
      ∃ rest, [0x0C, 0xC0, 0xBE, 0x44, 0x00]
        = 0x0C :: 0xC0 :: 0xBE :: 0x44 :: rest) ∧
    (select_decoder [0x0C, 0xC0, 0xBE, 0x44, 0x00]
        ≠ ManifestDecoder.binary →
      select_decoder [0x0C, 0xC0, 0xBE, 0x44, 0x00]
        = ManifestDecoder.json) :=
  select_decoder_binary_iff [0x0C, 0xC0, 0xBE, 0x44, 0x00]

/-- C7 counterexample: an input whose first four bytes are
`0x44 0xBE 0xC0 0x0C` (the byte order the claim asserts for the magic
constant) is routed to the JSON decoder, not the binary one, and the
constant actually compared is not that byte sequence. -/
theorem magic_byte_order_counterexample :
    select_decoder [0x44, 0xBE, 0xC0, 0x0C] = ManifestDecoder.json ∧
    manifest_magic ≠ [0x44, 0xBE, 0xC0, 0x0C] := by
  decide

/-- C7 (amended): the magic constant compared against the input's first
four bytes is, in byte order, `0x0C 0xC0 0xBE 0x44` — the little-endian
encoding of the 32-bit value `0x44BEC00C` — and an input carrying exactly
those leading bytes selects the binary decoder. -/
theorem magic_is_le_44BEC00C :
    manifest_magic = [0x0C, 0xC0, 0xBE, 0x44] ∧
    manifest_magic = le_bytes 4 0x44BEC00C ∧
    select_decoder (le_bytes 4 0x44BEC00C) = ManifestDecoder.binary := by
  decide

/-- C2: on the scenario list `[A(null,2), B(beta,2), C(beta,1)]`, both
build-selection routines resolve to C when the explicit id "C" is given
(even with branch "beta" also selected), to B when only branch "beta" is
given, and to A when no selector is given. -/
theorem scenario_build_resolution :
    resolve_build scenario_builds (some "beta") (some "C") = some buildC ∧
    resolve_build scenario_builds (some "beta") none = some buildB ∧
    resolve_build scenario_builds none none = some buildA ∧
    resolve_build_download scenario_builds (some "beta") (some "C")
      = some buildC ∧
    resolve_build_download scenario_builds (some "beta") none
      = some buildB ∧
    resolve_build_download scenario_builds none none = some buildA := by
  refine ⟨?_, ?_, ?_, ?_, ?_, ?_⟩ <;> rfl

/-- C4: during a repair (`is_verifying`), a persisted manifest recording
version `v` overrides the resolved generation to `v`: whatever build the
selectors pick, and whatever generation that build reports remotely,
`setup_download_manager` yields the pair `(target, v)` whenever `v` is a
supported generation. -/
theorem repair_generation_override (items : List BuildDescriptor)
    (branch explicit_build : Option String) (v : Int)
    (target : BuildDescriptor)
    (ht : resolve_build items branch explicit_build = some target)
    (hv : v = 1 ∨ v = 2) :
    setup_download_manager items branch explicit_build true (some v)
      = Except.ok (target, v) ∧
    resolve_generation target true (some v) = v := by
  have hg : resolve_generation target true (some v) = v := rfl
  refine ⟨?_, hg⟩
  unfold setup_download_manager
  rw [ht]
  simp [hg, hv]

/-- Witness for C4: on the scenario list with no selectors the target is
build A, whose remote generation is 2; a cached manifest recording
version 1 makes resolution return generation 1. -/
theorem repair_generation_override_witness :
    (resolve_build scenario_builds none none = some buildA ∧
      ((1 : Int) = 1 ∨ (1 : Int) = 2)) ∧
    (setup_download_manager scenario_builds none none true (some 1)
        = Except.ok (buildA, 1) ∧
      resolve_generation buildA true (some 1) = 1) :=
  ⟨⟨rfl, Or.inl rfl⟩,
    repair_generation_override scenario_builds none none 1 buildA rfl
      (Or.inl rfl)⟩

/-- C5: resolution fails with `noBuildsAvailable` on an empty build
list, and with `unsupportedGeneration` whenever the generation left
after any cached-manifest override is neither 1 nor 2. -/
theorem resolution_failures (items : List BuildDescriptor)
    (branch explicit_build : Option String) (is_verifying : Bool)
    (cached_version : Option Int) :
    (items = [] →
      setup_download_manager items branch explicit_build is_verifying
        cached_version = Except.error ResolutionError.noBuildsAvailable) ∧
    (∀ target, resolve_build items branch explicit_build = some target →
      resolve_generation target is_verifying cached_version ≠ 1 →
      resolve_generation target is_verifying cached_version ≠ 2 →
      setup_download_manager items branch explicit_build is_verifying
        cached_version
        = Except.error ResolutionError.unsupportedGeneration) := by
  constructor
  · rintro rfl
    rfl
  · intro target ht h1 h2
    unfold setup_download_manager
    rw [ht]
    simp [h1, h2]

/-- Witness for C5: the empty list resolves to `noBuildsAvailable`, and
a single build of generation 3 resolves to `unsupportedGeneration`. -/
theorem resolution_failures_witness :
    (([] : List BuildDescriptor) = [] ∧
      setup_download_manager [] none none false none
        = Except.error ResolutionError.noBuildsAvailable) ∧
    (resolve_build [badBuild] none none = some badBuild ∧
      setup_download_manager [badBuild] none none false none
        = Except.error ResolutionError.unsupportedGeneration) :=
  ⟨⟨rfl, (resolution_failures [] none none false none).1 rfl⟩,
    ⟨rfl, (resolution_failures [badBuild] none none false none).2 badBuild
      rfl (by decide) (by decide)⟩⟩

/-- An attempt failed in the sense of the specification (transport
exception or non-200 status) is one after which the code retries. -/
theorem attempt_fails_retried (r : AttemptResult)
    (h : attempt_fails r = true) : attempt_retried r = true := by
  cases r with
  | transportError => rfl
  | httpResponse status body =>
    simp [attempt_fails] at h
    simp [attempt_retried, h]

/-- One unrolling of the retry loop: when the attempt's outcome leads to
a retry, the run is the request, the backoff `sleep_time attempt`, and
then the run of the next attempt with one unit less budget. -/
theorem get_secure_link_from_retry_step
    (respond : Nat → String → AttemptResult) (url : String)
    (remaining attempt : Nat)
    (h : attempt_retried (respond attempt url) = true) :
    get_secure_link_from respond url (remaining + 1) attempt =
      ⟨SecureLinkEvent.request attempt ::
        SecureLinkEvent.backoff (sleep_time attempt) ::
        (get_secure_link_from respond url remaining (attempt + 1)).trace,
        (get_secure_link_from respond url remaining (attempt + 1)).result⟩ := by
  rcases hresp : respond attempt url with _ | ⟨status, body⟩
  · simp [get_secure_link_from, hresp]
  · rw [hresp] at h
    simp [attempt_retried] at h
    by_cases hs : status = 200
    · subst hs
      have hb : body = JsonBody.malformed := by simpa using h
      subst hb
      simp [get_secure_link_from, hresp]
    · simp [get_secure_link_from, hresp, hs]

/-- When every attempt on the given URL leads to a retry, the returned
URL list is empty, whatever the budget and starting attempt. -/
theorem get_secure_link_from_all_retried
    (respond : Nat → String → AttemptResult) (url : String)
    (h : ∀ i, attempt_retried (respond i url) = true) :
    ∀ remaining attempt,
      (get_secure_link_from respond url remaining attempt).result = [] := by
  intro remaining
  induction remaining with
  | zero => intro attempt; rfl
  | succ n ih =>
    intro attempt
    rw [get_secure_link_from_retry_step respond url n attempt (h attempt)]
    exact ih (attempt + 1)

/-- Every non-empty run starts by issuing the request of its first
attempt: no event precedes it. -/
theorem get_secure_link_from_starts_with_request
    (respond : Nat → String → AttemptResult) (url : String)
    (remaining attempt : Nat) :
    ∃ rest, (get_secure_link_from respond url (remaining + 1) attempt).trace
      = SecureLinkEvent.request attempt :: rest := by
  rcases hresp : respond attempt url with _ | ⟨status, body⟩
  · refine ⟨SecureLinkEvent.backoff (sleep_time attempt) ::
      (get_secure_link_from respond url remaining (attempt + 1)).trace, ?_⟩
    simp [get_secure_link_from, hresp]
  · by_cases hs : status = 200
    · subst hs
      cases body with
      | malformed =>
        refine ⟨SecureLinkEvent.backoff (sleep_time attempt) ::
          (get_secure_link_from respond url remaining (attempt + 1)).trace,
          ?_⟩
        simp [get_secure_link_from, hresp]
      | parsed urls =>
        refine ⟨[], ?_⟩
        simp [get_secure_link_from, hresp]
    · refine ⟨SecureLinkEvent.backoff (sleep_time attempt) ::
        (get_secure_link_from respond url remaining (attempt + 1)).trace,
        ?_⟩
      simp [get_secure_link_from, hresp, hs]

/-- C3: a call with `max_retries = 3` on which every attempt fails (a
transport exception or a non-200 status) issues exactly 3 HTTP requests
and never a 4th, sleeps a total backoff of 0.2 + 0.4 + 0.8 = 1.4
seconds, and returns the empty list instead of propagating an error. -/
theorem secure_link_three_failures
    (respond : Nat → String → AttemptResult)
    (gog_content_system product_id path : String) (generation : Int)
    (root : Option String)
    (h : ∀ i, i < 3 → attempt_fails
      (respond i (secure_link_url gog_content_system product_id path
        generation root)) = true) :
    count_requests (get_secure_link respond gog_content_system product_id
      path generation root 3).trace = 3 ∧
    total_sleep (get_secure_link respond gog_content_system product_id
      path generation root 3).trace = 7/5 ∧
    (get_secure_link respond gog_content_system product_id path generation
      root 3).result = [] := by
  set url := secure_link_url gog_content_system product_id path generation
    root with hurl
  have h0 := attempt_fails_retried _ (h 0 (by omega))
  have h1 := attempt_fails_retried _ (h 1 (by omega))
  have h2 := attempt_fails_retried _ (h 2 (by omega))
  have s2 : get_secure_link_from respond url 1 2 =
      ⟨[SecureLinkEvent.request 2,
        SecureLinkEvent.backoff (sleep_time 2)], []⟩ := by
    have e := get_secure_link_from_retry_step respond url 0 2 h2
    simpa [get_secure_link_from] using e
  have s1 : get_secure_link_from respond url 2 1 =
      ⟨[SecureLinkEvent.request 1, SecureLinkEvent.backoff (sleep_time 1),
        SecureLinkEvent.request 2,
        SecureLinkEvent.backoff (sleep_time 2)], []⟩ := by
    have e := get_secure_link_from_retry_step respond url 1 1 h1
    rw [s2] at e
    simpa using e
  have s0 : get_secure_link_from respond url 3 0 =
      ⟨[SecureLinkEvent.request 0, SecureLinkEvent.backoff (sleep_time 0),
        SecureLinkEvent.request 1, SecureLinkEvent.backoff (sleep_time 1),
        SecureLinkEvent.request 2,
        SecureLinkEvent.backoff (sleep_time 2)], []⟩ := by
    have e := get_secure_link_from_retry_step respond url 2 0 h0
    rw [s1] at e
    simpa using e
  have hrun : get_secure_link respond gog_content_system product_id path
      generation root 3 = get_secure_link_from respond url 3 0 := rfl
  rw [hrun, s0]
  refine ⟨rfl, ?_, rfl⟩
  show sleep_time 0 + (sleep_time 1 + (sleep_time 2 + 0)) = 7/5
  norm_num [sleep_time]

/-- Witness for C3: the all-transport-error oracle with retry budget 3
issues 3 requests, sleeps 1.4 seconds in total, and returns `[]`. -/
theorem secure_link_three_failures_witness :
    (∀ i, i < 3 → attempt_fails
      (all_fail_respond i (secure_link_url "cs" "p" "" 2 none)) = true) ∧
    (count_requests (get_secure_link all_fail_respond "cs" "p" "" 2 none
      3).trace = 3 ∧
    total_sleep (get_secure_link all_fail_respond "cs" "p" "" 2 none
      3).trace = 7/5 ∧
    (get_secure_link all_fail_respond "cs" "p" "" 2 none 3).result = []) :=
  ⟨fun _ _ => rfl,
    secure_link_three_failures all_fail_respond "cs" "p" "" 2 none
      (fun _ _ => rfl)⟩

/-- C6 counterexample: take the call on the all-failing oracle with
retry budget 3.  Attempt 1 is issued, yet the backoff applied
immediately before it is 0.2 seconds, not the `0.2 × 2^1 = 0.4` the
claim assigns to attempt 1; likewise no backoff at all precedes attempt
0, where the claim demands `0.2 × 2^0 = 0.2`. -/
theorem secure_link_backoff_counterexample :
    SecureLinkEvent.request 1 ∈
      (get_secure_link all_fail_respond "cs" "p" "" 2 none 3).trace ∧
    delay_before
      (get_secure_link all_fail_respond "cs" "p" "" 2 none 3).trace 1
      = 1/5 ∧
    (1/5 : ℚ) ≠ 1/5 * 2 ^ 1 ∧
    delay_before
      (get_secure_link all_fail_respond "cs" "p" "" 2 none 3).trace 0
      = 0 ∧
    (0 : ℚ) ≠ 1/5 * 2 ^ 0 := by
  have ht : (get_secure_link all_fail_respond "cs" "p" "" 2 none 3).trace
      = [SecureLinkEvent.request 0, SecureLinkEvent.backoff (sleep_time 0),
        SecureLinkEvent.request 1, SecureLinkEvent.backoff (sleep_time 1),
        SecureLinkEvent.request 2,
        SecureLinkEvent.backoff (sleep_time 2)] := rfl
  rw [ht]
  refine ⟨by simp, ?_, by norm_num, ?_, by norm_num⟩
  · show sleep_time 0 = 1/5
    norm_num [sleep_time]
  · rfl

/-- C6 (amended): the backoff of `0.2 × 2^n` seconds is applied after
attempt `n` (0-indexed) fails, synchronously before the next attempt is
issued; no backoff precedes the first attempt of a call. -/
theorem secure_link_backoff_schedule
    (respond : Nat → String → AttemptResult) (url : String)
    (remaining attempt : Nat)
    (h : attempt_retried (respond attempt url) = true) :
    (get_secure_link_from respond url (remaining + 1) attempt).trace =
      SecureLinkEvent.request attempt ::
        SecureLinkEvent.backoff (1/5 * 2 ^ attempt) ::
        (get_secure_link_from respond url remaining (attempt + 1)).trace ∧
    ∀ (gog_content_system product_id path : String) (generation : Int)
      (root : Option String) (max_retries : Nat),
      delay_before (get_secure_link respond gog_content_system product_id
        path generation root max_retries).trace 0 = 0 := by
  constructor
  · have e := get_secure_link_from_retry_step respond url remaining attempt h
    rw [e]
    rfl
  · intro gcs pid path generation root max_retries
    cases max_retries with
    | zero => rfl
    | succ m =>
      obtain ⟨rest, hrest⟩ := get_secure_link_from_starts_with_request
        respond (secure_link_url gcs pid path generation root) m 0
      show delay_before (get_secure_link_from respond
        (secure_link_url gcs pid path generation root) (m + 1) 0).trace 0 = 0
      rw [hrest]
      simp [delay_before]

/-- Witness for C6 (amended): the first failing attempt of the
all-failing oracle is followed by a 0.2-second backoff, and no delay
precedes attempt 0. -/
theorem secure_link_backoff_schedule_witness :
    attempt_retried (all_fail_respond 0 "u") = true ∧
    ((get_secure_link_from all_fail_respond "u" (2 + 1) 0).trace =
      SecureLinkEvent.request 0 ::
        SecureLinkEvent.backoff (1/5 * 2 ^ 0) ::
        (get_secure_link_from all_fail_respond "u" 2 (0 + 1)).trace ∧
    ∀ (gog_content_system product_id path : String) (generation : Int)
      (root : Option String) (max_retries : Nat),
      delay_before (get_secure_link all_fail_respond gog_content_system
        product_id path generation root max_retries).trace 0 = 0) :=
  ⟨rfl, secure_link_backoff_schedule all_fail_respond "u" 2 0 rfl⟩

/-- C8: a first attempt answered 200 with a decoded body makes
`get_secure_link` return exactly the body's `urls` field, and the empty
list when that field is absent. -/
theorem secure_link_success_urls
    (respond : Nat → String → AttemptResult)
    (gog_content_system product_id path : String) (generation : Int)
    (root : Option String) (max_retries : Nat)
    (urls : Option (List String))
    (hm : 0 < max_retries)
    (h : respond 0 (secure_link_url gog_content_system product_id path
      generation root) = AttemptResult.httpResponse 200
        (JsonBody.parsed urls)) :
    (get_secure_link respond gog_content_system product_id path generation
      root max_retries).result = urls.getD [] ∧
    (urls = none →
      (get_secure_link respond gog_content_system product_id path
        generation root max_retries).result = []) := by
  obtain ⟨m, rfl⟩ : ∃ m, max_retries = m + 1 :=
    ⟨max_retries - 1, by omega⟩
  have hres : (get_secure_link respond gog_content_system product_id path
      generation root (m + 1)).result = urls.getD [] := by
    show (get_secure_link_from respond (secure_link_url gog_content_system
      product_id path generation root) (m + 1) 0).result = urls.getD []
    simp [get_secure_link_from, h]
  exact ⟨hres, fun hnone => by rw [hres, hnone]; rfl⟩

/-- Witness for C8: an oracle answering 200 with a body lacking the
`urls` field yields the empty list. -/
theorem secure_link_success_urls_witness :
    (0 < 3 ∧ no_urls_respond 0 (secure_link_url "cs" "p" "" 2 none)
      = AttemptResult.httpResponse 200 (JsonBody.parsed none)) ∧
    ((get_secure_link no_urls_respond "cs" "p" "" 2 none 3).result
        = (none : Option (List String)).getD [] ∧
      ((none : Option (List String)) = none →
        (get_secure_link no_urls_respond "cs" "p" "" 2 none 3).result
          = [])) :=
  ⟨⟨by omega, rfl⟩,
    secure_link_success_urls no_urls_respond "cs" "p" "" 2 none 3 none
      (by omega) rfl⟩

/-- C9: with an empty cached owned list, `does_user_own` returns `True`
whenever ownership cannot be determined: the fetch raised, returned a
falsy value, or returned a document without an `owned` key. -/
theorem does_user_own_fails_open (game_id : String)
    (fetch : FetchUserData)
    (h : fetch = FetchUserData.raised ∨
      fetch = FetchUserData.returned none ∨
      ∃ ud, ud.owned = none ∧ fetch = FetchUserData.returned (some ud)) :
    does_user_own game_id [] fetch = true := by
  rcases h with rfl | rfl | ⟨⟨o⟩, ho, rfl⟩
  · rfl
  · rfl
  · simp only at ho
    subst ho
    rfl

/-- Witness for C9: a raised fetch with an empty cache reports the game
as owned. -/
theorem does_user_own_fails_open_witness :
    (FetchUserData.raised = FetchUserData.raised ∨
      FetchUserData.raised = FetchUserData.returned none ∨
      ∃ ud, ud.owned = none ∧
        FetchUserData.raised = FetchUserData.returned (some ud)) ∧
    does_user_own "1207664663" [] FetchUserData.raised = true :=
  ⟨Or.inl rfl,
    does_user_own_fails_open "1207664663" FetchUserData.raised
      (Or.inl rfl)⟩

/-- C10: when the generation is neither 1 nor 2, the built request URL
is only the optional root suffix (no generation-specific URL exists),
and — every attempt on that degenerate URL failing — the call returns
the empty list once the retry budget is exhausted. -/
theorem secure_link_degenerate_generation
    (respond : Nat → String → AttemptResult)
    (gog_content_system product_id path : String) (generation : Int)
    (root : Option String) (max_retries : Nat)
    (h1 : generation ≠ 1) (h2 : generation ≠ 2)
    (hf : ∀ i, attempt_retried (respond i (secure_link_url
      gog_content_system product_id path generation root)) = true) :
    secure_link_url gog_content_system product_id path generation root
      = root_suffix root ∧
    (get_secure_link respond gog_content_system product_id path generation
      root max_retries).result = [] := by
  have hu : secure_link_url gog_content_system product_id path generation
      root = root_suffix root := by
    unfold secure_link_url root_suffix
    cases root with
    | none => simp [h1, h2]
    | some r =>
      by_cases hr : r = ""
      · simp [h1, h2, hr]
      · simp only [if_neg h2, if_neg h1, if_neg hr]
        rfl
  exact ⟨hu, get_secure_link_from_all_retried respond _ hf max_retries 0⟩

/-- Witness for C10: generation 3 with no root yields the empty URL, and
the all-failing oracle returns the empty list. -/
theorem secure_link_degenerate_generation_witness :
    ((3 : Int) ≠ 1 ∧ (3 : Int) ≠ 2 ∧
      (∀ i, attempt_retried
        (all_fail_respond i (secure_link_url "cs" "p" "" 3 none))
        = true)) ∧
    (secure_link_url "cs" "p" "" 3 none = root_suffix none ∧
      (get_secure_link all_fail_respond "cs" "p" "" 3 none 3).result
        = []) :=
  ⟨⟨by decide, by decide, fun _ => rfl⟩,
    secure_link_degenerate_generation all_fail_respond "cs" "p" "" 3 none
      3 (by decide) (by decide) (fun _ => rfl)⟩

end GameNative
